import Mathlib

/-!
Verification of the topic compliance checklist engine
(`src/pkg/check/check.go`, function `CheckTopic`).

The orchestration logic of `CheckTopic` is embedded faithfully.  The
collaborators it calls live elsewhere in the repository (`pkg/admin`,
`pkg/config`) and are treated as oracles supplied through a `ClusterEnv`
record: the result of the broker query, the result of the static validator,
the result of the consistency checker, the result of the live-topic query,
and the settings-diff function.  Go's `%` on machine integers panics on a
zero divisor, so the run is embedded in `Except String`: the error channel
carries a runtime panic (the only panic source here is division by zero),
while the Go-level `(results, err)` pair is the success value.
-/

/-- Go errors are opaque values rendered into messages with `%+v`; they are
modelled by their rendered message text. -/
abbrev GoErr := String

/-- Closed enumeration of check identifiers, from `pkg/check` (the constant
declarations are outside `src/`; the spec lists exactly these eight names,
the `TopicExists` check being commented out in the source). -/
inductive CheckName where
  | configCorrect
  | configsConsistent
  | configSettingsCorrect
  | replicationFactorCorrect
  | partitionCountCorrect
  | throttlesClear
  | replicasInSync
  | leadersCorrect
deriving DecidableEq, Repr

/-- One check outcome: name, passed flag, message.  A freshly appended
result has the Go zero values `passed = false`, `message = ""`. -/
structure TopicCheckResult where
  name : CheckName
  passed : Bool := false
  message : String := ""
deriving DecidableEq, Repr

/-- Modelled from the spec: the Result Log's `append` operation
(`results.AppendResult` of `pkg/check`, not under `src/`) adds a new pending
`TopicCheckResult` to the end of the report. -/
def AppendResult (rs : List TopicCheckResult) (r : TopicCheckResult) :
    List TopicCheckResult :=
  rs ++ [r]

/-- Modelled from the spec: the Result Log's `finalize` operation
(`results.UpdateLastResult` of `pkg/check`, not under `src/`) overwrites the
last appended entry's `passed` and `message` fields.  On an empty report
(a precondition violation the spec calls a programming error) it is a
no-op. -/
def UpdateLastResult : List TopicCheckResult → Bool → String → List TopicCheckResult
  | [], _, _ => []
  | [r], p, m => [{ r with passed := p, message := m }]
  | a :: b :: t, p, m => a :: UpdateLastResult (b :: t) p m

/-- Values of a topic settings map (`map[string]interface{}` in Go): the
declared settings hold strings or numbers, and the retention override stores
an integer number of milliseconds. -/
inductive SettingVal where
  | intV (i : Int)
  | strV (s : String)
deriving DecidableEq, Repr

/-- Settings and live config maps, as association lists keyed by config
name. -/
abbrev SettingsMap := List (String × SettingVal)

/-- Look up a key in a settings map. -/
def lookupKey (m : SettingsMap) (k : String) : Option SettingVal :=
  match m with
  | [] => none
  | (k', v) :: rest => if k' = k then some v else lookupKey rest k

/-- Insert-or-overwrite a key in a settings map (Go's `m[k] = v`). -/
def setKey (m : SettingsMap) (k : String) (v : SettingVal) : SettingsMap :=
  match m with
  | [] => [(k, v)]
  | (k', v') :: rest =>
      if k' = k then (k, v) :: rest else (k', v') :: setKey rest k v

/-- Retention key constant (`admin.RetentionKey`, i.e. "retention.ms"). -/
def RetentionKey : String := "retention.ms"

/-- Modelled from the spec: `ConfigMapDiffs` (`pkg/admin`, not under `src/`)
diffs the effective desired settings map against the live config map,
returning (a) the keys present in both maps but with differing values and
(b) the keys declared but absent from the live config. -/
def ConfigMapDiffs (settings live : SettingsMap) : List String × List String :=
  (settings.filterMap fun kv =>
      match lookupKey live kv.1 with
      | some v => if v ≠ kv.2 then some kv.1 else none
      | none => none,
   settings.filterMap fun kv =>
      match lookupKey live kv.1 with
      | some _ => none
      | none => some kv.1)

/-- Byte-wise lexicographic comparison of character lists, modelling Go's
`<` on strings (identical to Go for the ASCII config keys in play). -/
def charListLt : List Char → List Char → Bool
  | [], [] => false
  | [], _ :: _ => true
  | _ :: _, [] => false
  | a :: as, b :: bs =>
      if a < b then true else if b < a then false else charListLt as bs

/-- Go string comparison used by `sort.Slice` on the diff keys. -/
def strLt (a b : String) : Bool := charListLt a.data b.data

/-- Insert into a sorted list of keys. -/
def insertSorted (s : String) : List String → List String
  | [] => [s]
  | t :: ts => if strLt s t then s :: t :: ts else t :: insertSorted s ts

/-- Ascending lexicographic sort, modelling the `sort.Slice` call on the
combined diff keys (check.go lines 121-123). -/
def sortKeys : List String → List String
  | [] => []
  | s :: ss => insertSorted s (sortKeys ss)

/-- Rendering of a Go `[]string` by `fmt`'s `%v` verb: space-separated
inside square brackets. -/
def formatStringList (keys : List String) : String :=
  "[" ++ String.intercalate " " keys ++ "]"

/-- Go's `%` on int: truncated modulus, panicking on a zero divisor.  The
panic is carried on the `Except` error channel. -/
def goMod (a b : Int) : Except String Int :=
  if b = 0 then Except.error "runtime error: integer divide by zero"
  else Except.ok (Int.tmod a b)

/-- Declared desired state of the topic (the fields of
`config.TopicConfig` that `CheckTopic` reads: name, replication factor,
partition count, settings map, retention minutes). -/
structure TopicConfig where
  name : String
  replicationFactor : Int
  partitions : Int
  settings : SettingsMap
  retentionMinutes : Int
deriving Repr

/-- Modelled from the spec: the live-metadata view of the topic that
`CheckTopic` consumes, with the delegated predicates of `admin.TopicInfo`
(not under `src/`) recorded by their results: the live config map,
`len(topicInfo.Partitions)`, `IsThrottled()`, `len(OutOfSyncPartitions(nil))`
and `len(WrongLeaderPartitions(nil))`. -/
structure TopicInfo where
  config : SettingsMap
  numPartitions : Nat
  throttled : Bool
  numOutOfSync : Nat
  numWrongLeader : Nat
deriving Repr

/-- Modelled from the spec: the Go zero value of `admin.TopicInfo`, which is
what the live-topic query hands back alongside a not-found or other error;
its delegated predicates trivially report no throttle, no out-of-sync
partitions and no wrong leaders (spec section 9 design note). -/
def zeroTopicInfo : TopicInfo :=
  { config := [], numPartitions := 0, throttled := false,
    numOutOfSync := 0, numWrongLeader := 0 }

/-- Outcome of the live-topic query `AdminClient.GetTopic`: success with
metadata, the distinguished `admin.ErrTopicDoesNotExist` condition, or any
other error. -/
inductive TopicQueryResult where
  | found (info : TopicInfo)
  | notFound
  | otherError (e : GoErr)

/-- Oracle record for the external collaborators of `CheckTopic`: the
result of `AdminClient.GetBrokers`, of `TopicConfig.Validate(numRacks)`
(`none` = valid), of `config.CheckConsistency` (`none` = consistent), of
`AdminClient.GetTopic`, and the `ConfigMapDiffs` function of the settings
map (which may itself fail). -/
structure ClusterEnv where
  getBrokers : Except GoErr (List Nat)
  validateErr : Option GoErr
  consistencyErr : Option GoErr
  getTopic : TopicQueryResult
  configMapDiffs : SettingsMap → SettingsMap →
    Except GoErr (List String × List String)

/-- Inputs of `CheckTopic` other than the admin client: the feature
toggles, rack count and declared topic config of `check.CheckConfig` (the
cluster config is consumed only through the consistency oracle). -/
structure CheckConfig where
  checkLeaders : Bool
  numRacks : Int
  topicConfig : TopicConfig
  validateOnly : Bool

/-- Effective desired settings map (check.go lines 100-103): a copy of the
declared settings with the retention key overwritten to
`retentionMinutes * 60000` when a positive retention is declared. -/
def effectiveSettings (tc : TopicConfig) : SettingsMap :=
  if tc.retentionMinutes > 0 then
    setKey tc.settings RetentionKey (SettingVal.intV (tc.retentionMinutes * 60000))
  else
    tc.settings

/-- Tail of `CheckTopic` from the replication-factor check onward
(check.go lines 135-233): replication factor, partition count, throttles,
replicas in sync, and leaders when enabled.  Both `%` computations use
`goMod`, so an empty broker list surfaces as a division-by-zero panic on
the `Except` error channel, exactly as in Go. -/
def remainingChecks (cfg : CheckConfig) (numBrokers : Nat)
    (topicInfo : TopicInfo) (results : List TopicCheckResult) :
    Except String (List TopicCheckResult × Option GoErr) :=
  let results := AppendResult results { name := CheckName.replicationFactorCorrect }
  match goMod cfg.topicConfig.replicationFactor (numBrokers : Int) with
  | Except.error e => Except.error e
  | Except.ok rfMod =>
    let results :=
      if rfMod = 0 then
        UpdateLastResult results true ""
      else
        UpdateLastResult results false
          ("len(ReplicationFactor) " ++ toString cfg.topicConfig.replicationFactor ++
            " must be a multiple of len(broker) " ++ toString numBrokers)
    let results := AppendResult results { name := CheckName.partitionCountCorrect }
    match goMod cfg.topicConfig.partitions (numBrokers : Int) with
    | Except.error e => Except.error e
    | Except.ok pMod =>
      let results :=
        if pMod = 0 ∨ cfg.topicConfig.partitions = 1 then
          UpdateLastResult results true ""
        else
          UpdateLastResult results false
            ("len(Partitions) " ++ toString cfg.topicConfig.partitions ++
              " must be a multiple of len(broker) " ++ toString numBrokers)
      let results := AppendResult results { name := CheckName.throttlesClear }
      let results :=
        if !topicInfo.throttled then
          UpdateLastResult results true ""
        else
          UpdateLastResult results false "topic has existing throttles"
      let results := AppendResult results { name := CheckName.replicasInSync }
      let results :=
        if topicInfo.numOutOfSync = 0 then
          UpdateLastResult results true ""
        else
          UpdateLastResult results false
            (toString topicInfo.numOutOfSync ++ "/" ++
              toString topicInfo.numPartitions ++
              " partitions have out-of-sync replicas")
      let results :=
        if cfg.checkLeaders then
          let results := AppendResult results { name := CheckName.leadersCorrect }
          if topicInfo.numWrongLeader = 0 then
            UpdateLastResult results true ""
          else
            UpdateLastResult results false
              (toString topicInfo.numWrongLeader ++ "/" ++
                toString topicInfo.numPartitions ++
                " partitions have wrong leaders")
        else results
      Except.ok (results, none)

/-- Embedding of `CheckTopic` (check.go lines 25-233).  Mirrors the source
control flow: broker query (abort with the error on failure), ConfigCorrect
with short-circuit, ConfigsConsistent with short-circuit, the
`validateOnly` early return, the topic query whose error is inspected only
for the not-found condition (the aborting early return of the original
code is commented out in the source, so any other error is dropped and the
zero-valued topic info flows on), the settings diff (skipped entirely when
the topic does not exist, aborting with the error when the diff itself
fails), then `remainingChecks`. -/
def CheckTopic (env : ClusterEnv) (cfg : CheckConfig) :
    Except String (List TopicCheckResult × Option GoErr) :=
  let results : List TopicCheckResult := []
  match env.getBrokers with
  | Except.error e => Except.ok (results, some e)
  | Except.ok brokers =>
    let results := AppendResult results { name := CheckName.configCorrect }
    match env.validateErr with
    | some e =>
        Except.ok
          (UpdateLastResult results false ("config validation error: " ++ e), none)
    | none =>
      let results := UpdateLastResult results true ""
      let results := AppendResult results { name := CheckName.configsConsistent }
      match env.consistencyErr with
      | some e =>
          Except.ok
            (UpdateLastResult results false
              ("config consistency error error: " ++ e), none)
      | none =>
        let results := UpdateLastResult results true ""
        if cfg.validateOnly then Except.ok (results, none)
        else
          let tq :=
            match env.getTopic with
            | TopicQueryResult.found info => (false, info)
            | TopicQueryResult.notFound => (true, zeroTopicInfo)
            | TopicQueryResult.otherError _ => (false, zeroTopicInfo)
          let topicDoesNotExist := tq.1
          let topicInfo := tq.2
          if topicDoesNotExist then
            remainingChecks cfg brokers.length topicInfo results
          else
            let results := AppendResult results { name := CheckName.configSettingsCorrect }
            let settings := effectiveSettings cfg.topicConfig
            match env.configMapDiffs settings topicInfo.config with
            | Except.error e => Except.ok (results, some e)
            | Except.ok (diffKeys, missingKeys) =>
              let results :=
                if diffKeys = [] ∧ missingKeys = [] then
                  UpdateLastResult results true ""
                else
                  let combinedKeys := sortKeys (diffKeys ++ missingKeys)
                  UpdateLastResult results false
                    (toString combinedKeys.length ++
                      " keys have different values between cluster and topic config: " ++
                      formatStringList combinedKeys)
              remainingChecks cfg brokers.length topicInfo results

/-! Helper characterizations of the Result Log operations and of the check
phases, shared by the theorems below. -/

@[simp]
theorem appendResult_eq (rs : List TopicCheckResult) (r : TopicCheckResult) :
    AppendResult rs r = rs ++ [r] := rfl

@[simp]
theorem updateLast_nil (p : Bool) (m : String) :
    UpdateLastResult [] p m = [] := rfl

@[simp]
theorem updateLast_singleton (r : TopicCheckResult) (p : Bool) (m : String) :
    UpdateLastResult [r] p m = [{ r with passed := p, message := m }] := rfl

@[simp]
theorem updateLast_cons_cons (a b : TopicCheckResult)
    (t : List TopicCheckResult) (p : Bool) (m : String) :
    UpdateLastResult (a :: b :: t) p m = a :: UpdateLastResult (b :: t) p m := rfl

@[simp]
theorem updateLast_append_cons (rs : List TopicCheckResult)
    (x : TopicCheckResult) (ts : List TopicCheckResult) (p : Bool) (m : String) :
    UpdateLastResult (rs ++ x :: ts) p m = rs ++ UpdateLastResult (x :: ts) p m := by
  induction rs with
  | nil => rfl
  | cons a as ih =>
    cases as with
    | nil =>
      cases ts with
      | nil => rfl
      | cons y ys => rfl
    | cons b bs =>
      show a :: UpdateLastResult ((b :: bs) ++ x :: ts) p m =
        (a :: b :: bs) ++ UpdateLastResult (x :: ts) p m
      rw [ih]
      rfl

/-- Report prefix after both static checks pass. -/
def staticPrefix : List TopicCheckResult :=
  [{ name := CheckName.configCorrect, passed := true },
   { name := CheckName.configsConsistent, passed := true }]

/-- Failure message of the settings check for a sorted combined key list. -/
def settingsMsg (keys : List String) : String :=
  toString keys.length ++
    " keys have different values between cluster and topic config: " ++
    formatStringList keys

/-- Finalized settings-check entry for given diff and missing key lists. -/
def settingsEntry (diffKeys missingKeys : List String) : TopicCheckResult :=
  if diffKeys = [] ∧ missingKeys = [] then
    { name := CheckName.configSettingsCorrect, passed := true }
  else
    { name := CheckName.configSettingsCorrect, passed := false,
      message := settingsMsg (sortKeys (diffKeys ++ missingKeys)) }

/-- Finalized entries produced by `remainingChecks` when the broker count is
non-zero. -/
def remainingReport (cfg : CheckConfig) (numBrokers : Nat)
    (topicInfo : TopicInfo) : List TopicCheckResult :=
  [if Int.tmod cfg.topicConfig.replicationFactor (numBrokers : Int) = 0 then
     { name := CheckName.replicationFactorCorrect, passed := true }
   else
     { name := CheckName.replicationFactorCorrect, passed := false,
       message := "len(ReplicationFactor) " ++
         toString cfg.topicConfig.replicationFactor ++
         " must be a multiple of len(broker) " ++ toString numBrokers },
   if Int.tmod cfg.topicConfig.partitions (numBrokers : Int) = 0 ∨
       cfg.topicConfig.partitions = 1 then
     { name := CheckName.partitionCountCorrect, passed := true }
   else
     { name := CheckName.partitionCountCorrect, passed := false,
       message := "len(Partitions) " ++ toString cfg.topicConfig.partitions ++
         " must be a multiple of len(broker) " ++ toString numBrokers },
   if !topicInfo.throttled then
     { name := CheckName.throttlesClear, passed := true }
   else
     { name := CheckName.throttlesClear, passed := false,
       message := "topic has existing throttles" },
   if topicInfo.numOutOfSync = 0 then
     { name := CheckName.replicasInSync, passed := true }
   else
     { name := CheckName.replicasInSync, passed := false,
       message := toString topicInfo.numOutOfSync ++ "/" ++
         toString topicInfo.numPartitions ++
         " partitions have out-of-sync replicas" }] ++
  (if cfg.checkLeaders then
     [if topicInfo.numWrongLeader = 0 then
        { name := CheckName.leadersCorrect, passed := true }
      else
        { name := CheckName.leadersCorrect, passed := false,
          message := toString topicInfo.numWrongLeader ++ "/" ++
            toString topicInfo.numPartitions ++
            " partitions have wrong leaders" }]
   else [])

theorem remainingChecks_eq (cfg : CheckConfig) (numBrokers : Nat)
    (topicInfo : TopicInfo) (results : List TopicCheckResult)
    (h : numBrokers ≠ 0) :
    remainingChecks cfg numBrokers topicInfo results =
      Except.ok (results ++ remainingReport cfg numBrokers topicInfo, none) := by
  have h0 : ¬ ((numBrokers : Int) = 0) := by
    simpa using h
  simp only [remainingChecks, goMod, if_neg h0, remainingReport]
  split_ifs <;> simp [List.append_assoc]

theorem remainingChecks_zero (cfg : CheckConfig) (topicInfo : TopicInfo)
    (results : List TopicCheckResult) :
    remainingChecks cfg 0 topicInfo results =
      Except.error "runtime error: integer divide by zero" := by
  simp [remainingChecks, goMod]

theorem checkTopic_broker_error (env : ClusterEnv) (cfg : CheckConfig)
    (e : GoErr) (hb : env.getBrokers = Except.error e) :
    CheckTopic env cfg = Except.ok ([], some e) := by
  simp [CheckTopic, hb]

theorem checkTopic_validate_fail (env : ClusterEnv) (cfg : CheckConfig)
    (bs : List Nat) (e : GoErr)
    (hb : env.getBrokers = Except.ok bs)
    (hv : env.validateErr = some e) :
    CheckTopic env cfg =
      Except.ok ([{ name := CheckName.configCorrect,
                    passed := false,
                    message := "config validation error: " ++ e }], none) := by
  simp [CheckTopic, hb, hv]

theorem checkTopic_consistency_fail (env : ClusterEnv) (cfg : CheckConfig)
    (bs : List Nat) (e : GoErr)
    (hb : env.getBrokers = Except.ok bs)
    (hv : env.validateErr = none)
    (hc : env.consistencyErr = some e) :
    CheckTopic env cfg =
      Except.ok ([{ name := CheckName.configCorrect, passed := true },
                  { name := CheckName.configsConsistent,
                    passed := false,
                    message := "config consistency error error: " ++ e }], none) := by
  simp [CheckTopic, hb, hv, hc]

theorem checkTopic_validateOnly_eq (env : ClusterEnv) (cfg : CheckConfig)
    (bs : List Nat)
    (hb : env.getBrokers = Except.ok bs)
    (hv : env.validateErr = none)
    (hc : env.consistencyErr = none)
    (ho : cfg.validateOnly = true) :
    CheckTopic env cfg = Except.ok (staticPrefix, none) := by
  simp [CheckTopic, hb, hv, hc, ho, staticPrefix]

theorem checkTopic_notFound_eq (env : ClusterEnv) (cfg : CheckConfig)
    (bs : List Nat)
    (hb : env.getBrokers = Except.ok bs)
    (hv : env.validateErr = none)
    (hc : env.consistencyErr = none)
    (ho : cfg.validateOnly = false)
    (ht : env.getTopic = TopicQueryResult.notFound) :
    CheckTopic env cfg = remainingChecks cfg bs.length zeroTopicInfo staticPrefix := by
  simp [CheckTopic, hb, hv, hc, ho, ht, staticPrefix]

theorem checkTopic_found_eq (env : ClusterEnv) (cfg : CheckConfig)
    (bs : List Nat) (info : TopicInfo) (diffKeys missingKeys : List String)
    (hb : env.getBrokers = Except.ok bs)
    (hv : env.validateErr = none)
    (hc : env.consistencyErr = none)
    (ho : cfg.validateOnly = false)
    (ht : env.getTopic = TopicQueryResult.found info)
    (hd : env.configMapDiffs (effectiveSettings cfg.topicConfig) info.config =
      Except.ok (diffKeys, missingKeys)) :
    CheckTopic env cfg =
      remainingChecks cfg bs.length info
        (staticPrefix ++ [settingsEntry diffKeys missingKeys]) := by
  simp only [CheckTopic, hb, hv, hc, ho, Bool.false_eq_true, if_false, ht, hd,
    staticPrefix, settingsEntry, settingsMsg, appendResult_eq]
  split_ifs <;> simp

theorem checkTopic_found_diffErr_eq (env : ClusterEnv) (cfg : CheckConfig)
    (bs : List Nat) (info : TopicInfo) (e : GoErr)
    (hb : env.getBrokers = Except.ok bs)
    (hv : env.validateErr = none)
    (hc : env.consistencyErr = none)
    (ho : cfg.validateOnly = false)
    (ht : env.getTopic = TopicQueryResult.found info)
    (hd : env.configMapDiffs (effectiveSettings cfg.topicConfig) info.config =
      Except.error e) :
    CheckTopic env cfg =
      Except.ok (staticPrefix ++
        [{ name := CheckName.configSettingsCorrect }], some e) := by
  simp [CheckTopic, hb, hv, hc, ho, ht, hd, staticPrefix]

theorem checkTopic_otherError_eq (env : ClusterEnv) (cfg : CheckConfig)
    (bs : List Nat) (e : GoErr) (diffKeys missingKeys : List String)
    (hb : env.getBrokers = Except.ok bs)
    (hv : env.validateErr = none)
    (hc : env.consistencyErr = none)
    (ho : cfg.validateOnly = false)
    (ht : env.getTopic = TopicQueryResult.otherError e)
    (hd : env.configMapDiffs (effectiveSettings cfg.topicConfig) [] =
      Except.ok (diffKeys, missingKeys)) :
    CheckTopic env cfg =
      remainingChecks cfg bs.length zeroTopicInfo
        (staticPrefix ++ [settingsEntry diffKeys missingKeys]) := by
  simp only [CheckTopic, hb, hv, hc, ho, Bool.false_eq_true, if_false, ht,
    staticPrefix, settingsEntry, settingsMsg, appendResult_eq, zeroTopicInfo, hd]
  split_ifs <;> simp [zeroTopicInfo]

/-! String facts used for the non-empty-message invariant. -/

theorem string_ne_empty_of_length (s : String) (h : s.length ≠ 0) : s ≠ "" :=
  fun hs => h (hs ▸ String.length_empty)

theorem append2_ne_empty_left (a b : String) (h : a.length ≠ 0) :
    a ++ b ≠ "" := by
  apply string_ne_empty_of_length
  simp only [String.length_append]
  omega

theorem append3_ne_empty_mid (a b c : String) (h : b.length ≠ 0) :
    a ++ b ++ c ≠ "" := by
  apply string_ne_empty_of_length
  simp only [String.length_append]
  omega

theorem append4_ne_empty_left (a b c d : String) (h : a.length ≠ 0) :
    a ++ b ++ c ++ d ≠ "" := by
  apply string_ne_empty_of_length
  simp only [String.length_append]
  omega

theorem append4_ne_empty_last (a b c d : String) (h : d.length ≠ 0) :
    a ++ b ++ c ++ d ≠ "" := by
  apply string_ne_empty_of_length
  simp only [String.length_append]
  omega

/-- Result invariant of the spec: a finalized entry has an empty message
exactly when it passed. -/
def resultInv (r : TopicCheckResult) : Prop :=
  (r.passed = true → r.message = "") ∧ (r.passed = false → r.message ≠ "")

theorem resultInv_passed (n : CheckName) :
    resultInv { name := n, passed := true, message := "" } := by
  constructor
  · intro _; rfl
  · intro hf; cases hf

theorem resultInv_failed (n : CheckName) (m : String) (h : m ≠ "") :
    resultInv { name := n, passed := false, message := m } := by
  constructor
  · intro ht; cases ht
  · intro _; exact h

theorem staticPrefix_invariant : ∀ r ∈ staticPrefix, resultInv r := by
  intro r hr
  simp only [staticPrefix, List.mem_cons, List.not_mem_nil, or_false] at hr
  rcases hr with rfl | rfl
  · exact resultInv_passed _
  · exact resultInv_passed _

theorem settingsEntry_invariant (diffKeys missingKeys : List String) :
    resultInv (settingsEntry diffKeys missingKeys) := by
  rw [settingsEntry]
  split_ifs
  · exact resultInv_passed _
  · exact resultInv_failed _ _ (append3_ne_empty_mid _ _ _ (by decide))

theorem remainingReport_invariant (cfg : CheckConfig) (numBrokers : Nat)
    (topicInfo : TopicInfo) :
    ∀ r ∈ remainingReport cfg numBrokers topicInfo, resultInv r := by
  intro r hr
  simp only [remainingReport, List.mem_append, List.mem_cons,
    List.not_mem_nil, or_false] at hr
  rcases hr with (rfl | rfl | rfl | rfl) | hr
  · split_ifs
    · exact resultInv_passed _
    · exact resultInv_failed _ _ (append4_ne_empty_left _ _ _ _ (by decide))
  · split_ifs
    · exact resultInv_passed _
    · exact resultInv_failed _ _ (append4_ne_empty_left _ _ _ _ (by decide))
  · split_ifs
    · exact resultInv_passed _
    · exact resultInv_failed _ _ (string_ne_empty_of_length _ (by decide))
  · split_ifs
    · exact resultInv_passed _
    · exact resultInv_failed _ _ (append4_ne_empty_last _ _ _ _ (by decide))
  · rcases hl : cfg.checkLeaders with _ | _
    · rw [hl] at hr; simp at hr
    · rw [hl] at hr
      simp only [if_true, List.mem_singleton] at hr
      subst hr
      split_ifs
      · exact resultInv_passed _
      · exact resultInv_failed _ _ (append4_ne_empty_last _ _ _ _ (by decide))

theorem remainingReport_no_settings (cfg : CheckConfig) (numBrokers : Nat)
    (topicInfo : TopicInfo) :
    ∀ r ∈ remainingReport cfg numBrokers topicInfo,
      r.name ≠ CheckName.configSettingsCorrect := by
  intro r hr
  simp only [remainingReport, List.mem_append, List.mem_cons,
    List.not_mem_nil, or_false] at hr
  rcases hr with (rfl | rfl | rfl | rfl) | hr
  · split_ifs <;> simp
  · split_ifs <;> simp
  · split_ifs <;> simp
  · split_ifs <;> simp
  · rcases hl : cfg.checkLeaders with _ | _
    · rw [hl] at hr; simp at hr
    · rw [hl] at hr
      simp only [if_true, List.mem_singleton] at hr
      subst hr
      split_ifs <;> simp

theorem remainingReport_rf (cfg : CheckConfig) (numBrokers : Nat)
    (topicInfo : TopicInfo) :
    ∃ r ∈ remainingReport cfg numBrokers topicInfo,
      r.name = CheckName.replicationFactorCorrect ∧
      (r.passed = true ↔
        Int.tmod cfg.topicConfig.replicationFactor (numBrokers : Int) = 0) := by
  by_cases h : Int.tmod cfg.topicConfig.replicationFactor (numBrokers : Int) = 0
  · exact ⟨{ name := CheckName.replicationFactorCorrect, passed := true },
      by rw [remainingReport]
         exact List.mem_append_left _
           (by rw [if_pos h]; exact List.mem_cons_self _ _),
      rfl, by simp [h]⟩
  · exact ⟨{ name := CheckName.replicationFactorCorrect,
               passed := false,
               message := "len(ReplicationFactor) " ++
                 toString cfg.topicConfig.replicationFactor ++
                 " must be a multiple of len(broker) " ++ toString numBrokers },
      by rw [remainingReport]
         exact List.mem_append_left _
           (by rw [if_neg h]; exact List.mem_cons_self _ _),
      rfl, by simp [h]⟩

theorem remainingReport_pc (cfg : CheckConfig) (numBrokers : Nat)
    (topicInfo : TopicInfo) :
    ∃ r ∈ remainingReport cfg numBrokers topicInfo,
      r.name = CheckName.partitionCountCorrect ∧
      (r.passed = true ↔
        (Int.tmod cfg.topicConfig.partitions (numBrokers : Int) = 0 ∨
          cfg.topicConfig.partitions = 1)) := by
  by_cases h : Int.tmod cfg.topicConfig.partitions (numBrokers : Int) = 0 ∨
      cfg.topicConfig.partitions = 1
  · exact ⟨{ name := CheckName.partitionCountCorrect, passed := true },
      by rw [remainingReport]
         exact List.mem_append_left _
           (List.mem_cons_of_mem _
             (by rw [if_pos h]; exact List.mem_cons_self _ _)),
      rfl, by simp [h]⟩
  · exact ⟨{ name := CheckName.partitionCountCorrect,
               passed := false,
               message := "len(Partitions) " ++
                 toString cfg.topicConfig.partitions ++
                 " must be a multiple of len(broker) " ++ toString numBrokers },
      by rw [remainingReport]
         exact List.mem_append_left _
           (List.mem_cons_of_mem _
             (by rw [if_neg h]; exact List.mem_cons_self _ _)),
      rfl, by simp [h]⟩

/-! Facts about the key sort and the modelled settings diff. -/

theorem insertSorted_length (s : String) (ls : List String) :
    (insertSorted s ls).length = ls.length + 1 := by
  induction ls with
  | nil => rfl
  | cons t ts ih =>
    rw [insertSorted]
    split_ifs <;> simp [ih]

theorem sortKeys_length (l : List String) : (sortKeys l).length = l.length := by
  induction l with
  | nil => rfl
  | cons s ss ih =>
    rw [sortKeys, insertSorted_length, ih]
    rfl

theorem mem_insertSorted (x s : String) (ls : List String) :
    x ∈ insertSorted s ls ↔ x = s ∨ x ∈ ls := by
  induction ls with
  | nil => simp [insertSorted]
  | cons t ts ih =>
    rw [insertSorted]
    split_ifs
    · simp
    · simp only [List.mem_cons, ih]
      tauto

theorem mem_sortKeys (x : String) (l : List String) :
    x ∈ sortKeys l ↔ x ∈ l := by
  induction l with
  | nil => simp [sortKeys]
  | cons s ss ih =>
    rw [sortKeys, mem_insertSorted, ih]
    simp

theorem charListLt_asymm (a b : List Char) (h : charListLt a b = true) :
    charListLt b a = false := by
  induction a generalizing b with
  | nil =>
    cases b with
    | nil => simp [charListLt] at h
    | cons y ys => simp [charListLt]
  | cons x xs ih =>
    cases b with
    | nil => simp [charListLt] at h
    | cons y ys =>
      rw [charListLt] at h ⊢
      by_cases h1 : x < y
      · rw [if_pos h1] at h
        rw [if_neg (lt_asymm h1), if_pos h1]
      · rw [if_neg h1] at h
        by_cases h2 : y < x
        · rw [if_pos h2] at h
          cases h
        · rw [if_neg h2] at h
          rw [if_neg h2, if_neg h1]
          exact ih ys h

theorem strLt_asymm (a b : String) (h : strLt a b = true) :
    strLt b a = false :=
  charListLt_asymm a.data b.data h

theorem insertSorted_headSplit (s : String) (ls : List String) :
    (insertSorted s ls).head? = some s ∨ (insertSorted s ls).head? = ls.head? := by
  cases ls with
  | nil => left; rfl
  | cons t ts =>
    rw [insertSorted]
    split_ifs
    · left; rfl
    · right; rfl

theorem chain'_insertSorted (s : String) (ls : List String)
    (h : List.Chain' (fun a b => strLt b a = false) ls) :
    List.Chain' (fun a b => strLt b a = false) (insertSorted s ls) := by
  induction ls with
  | nil => simp [insertSorted]
  | cons t ts ih =>
    rw [insertSorted]
    rw [List.chain'_cons'] at h
    split_ifs with hst
    · rw [List.chain'_cons']
      constructor
      · intro y hy
        simp only [List.head?_cons, Option.mem_def, Option.some.injEq] at hy
        subst hy
        exact strLt_asymm _ _ hst
      · rw [List.chain'_cons']
        exact h
    · rw [List.chain'_cons']
      refine ⟨?_, ih h.2⟩
      intro y hy
      rcases insertSorted_headSplit s ts with h1 | h1
      · rw [h1] at hy
        simp only [Option.mem_def, Option.some.injEq] at hy
        subst hy
        exact Bool.not_eq_true _ ▸ eq_false_of_ne_true hst
      · rw [h1] at hy
        exact h.1 y hy

theorem sortKeys_chain (l : List String) :
    List.Chain' (fun a b => strLt b a = false) (sortKeys l) := by
  induction l with
  | nil => simp [sortKeys]
  | cons s ss ih =>
    rw [sortKeys]
    exact chain'_insertSorted s _ ih

theorem configMapDiffs_disjoint (settings live : SettingsMap) (k : String)
    (h1 : k ∈ (ConfigMapDiffs settings live).1) :
    k ∉ (ConfigMapDiffs settings live).2 := by
  intro h2
  simp only [ConfigMapDiffs, List.mem_filterMap] at h1 h2
  obtain ⟨kv, -, hk⟩ := h1
  obtain ⟨kv', -, hk'⟩ := h2
  rcases hl : lookupKey live kv.1 with _ | v
  · rw [hl] at hk
    exact Option.noConfusion hk
  · rw [hl] at hk
    change (if v ≠ kv.2 then some kv.1 else none) = some k at hk
    by_cases hv : v ≠ kv.2
    · rw [if_pos hv] at hk
      have hkk : kv.1 = k := Option.some.inj hk
      rcases hl' : lookupKey live kv'.1 with _ | v'
      · rw [hl'] at hk'
        change some kv'.1 = some k at hk'
        have hkk' : kv'.1 = k := Option.some.inj hk'
        rw [hkk'] at hl'
        rw [hkk] at hl
        rw [hl'] at hl
        exact Option.noConfusion hl
      · rw [hl'] at hk'
        exact Option.noConfusion hk'
    · rw [if_neg hv] at hk
      exact Option.noConfusion hk

/-! Concrete fixtures used by the witnesses and counterexamples. -/

/-- Fixture: a declared topic config whose settings match the live config
below. -/
def wTopicConfig : TopicConfig :=
  { name := "topic-a", replicationFactor := 6, partitions := 12,
    settings := [("cleanup.policy", SettingVal.strV "delete")],
    retentionMinutes := 0 }

/-- Fixture: live metadata matching `wTopicConfig`. -/
def wInfo : TopicInfo :=
  { config := [("cleanup.policy", SettingVal.strV "delete")],
    numPartitions := 12, throttled := false,
    numOutOfSync := 0, numWrongLeader := 0 }

/-- Fixture: a healthy three-broker cluster with the topic present. -/
def wEnv : ClusterEnv :=
  { getBrokers := Except.ok [1, 2, 3],
    validateErr := none,
    consistencyErr := none,
    getTopic := TopicQueryResult.found wInfo,
    configMapDiffs := fun s l => Except.ok (ConfigMapDiffs s l) }

/-- Fixture: default check inputs. -/
def wCfg : CheckConfig :=
  { checkLeaders := false, numRacks := 3,
    topicConfig := wTopicConfig, validateOnly := false }

/-- C7: for every declared config that fails static validation (the
validator oracle reports an error), CheckTopic returns a report with exactly
one entry, ConfigCorrect failed, together with a nil error; no later check
is appended. -/
theorem claim_C7_validation_short_circuit (env : ClusterEnv)
    (cfg : CheckConfig) (bs : List Nat) (e : GoErr)
    (hb : env.getBrokers = Except.ok bs)
    (hv : env.validateErr = some e) :
    ∃ m, CheckTopic env cfg =
      Except.ok ([{ name := CheckName.configCorrect,
                    passed := false,
                    message := m }], none) ∧ m ≠ "" :=
  ⟨_, checkTopic_validate_fail env cfg bs e hb hv,
    append2_ne_empty_left _ _ (by decide)⟩

theorem claim_C7_validation_short_circuit_witness :
    ({ wEnv with validateErr := some "validation broke" } : ClusterEnv).getBrokers =
        Except.ok [1, 2, 3] ∧
    ({ wEnv with validateErr := some "validation broke" } : ClusterEnv).validateErr =
        some "validation broke" ∧
    ∃ m, CheckTopic { wEnv with validateErr := some "validation broke" } wCfg =
      Except.ok ([{ name := CheckName.configCorrect,
                    passed := false,
                    message := m }], none) ∧ m ≠ "" :=
  ⟨rfl, rfl,
    claim_C7_validation_short_circuit _ wCfg [1, 2, 3] "validation broke" rfl rfl⟩

/-- C8: for every declared config that passes static validation but fails
the cluster-consistency check, CheckTopic returns a report with exactly two
entries, the first (ConfigCorrect) passed and the second (ConfigsConsistent)
failed, together with a nil error; no later check is appended. -/
theorem claim_C8_consistency_short_circuit (env : ClusterEnv)
    (cfg : CheckConfig) (bs : List Nat) (e : GoErr)
    (hb : env.getBrokers = Except.ok bs)
    (hv : env.validateErr = none)
    (hc : env.consistencyErr = some e) :
    ∃ m, CheckTopic env cfg =
      Except.ok ([{ name := CheckName.configCorrect, passed := true },
                  { name := CheckName.configsConsistent,
                    passed := false,
                    message := m }], none) ∧ m ≠ "" :=
  ⟨_, checkTopic_consistency_fail env cfg bs e hb hv hc,
    append2_ne_empty_left _ _ (by decide)⟩

theorem claim_C8_consistency_short_circuit_witness :
    ({ wEnv with consistencyErr := some "inconsistent" } : ClusterEnv).getBrokers =
        Except.ok [1, 2, 3] ∧
    ({ wEnv with consistencyErr := some "inconsistent" } : ClusterEnv).validateErr = none ∧
    ({ wEnv with consistencyErr := some "inconsistent" } : ClusterEnv).consistencyErr =
        some "inconsistent" ∧
    ∃ m, CheckTopic { wEnv with consistencyErr := some "inconsistent" } wCfg =
      Except.ok ([{ name := CheckName.configCorrect, passed := true },
                  { name := CheckName.configsConsistent,
                    passed := false,
                    message := m }], none) ∧ m ≠ "" :=
  ⟨rfl, rfl, rfl,
    claim_C8_consistency_short_circuit _ wCfg [1, 2, 3] "inconsistent" rfl rfl rfl⟩

/-- C9: with validateOnly set and both static checks passing, CheckTopic
returns a two-entry report, both entries passed, with a nil error, and the
result does not depend on the live-topic query at all (it holds for every
value of the getTopic oracle, which is never consulted). -/
theorem claim_C9_validate_only (env : ClusterEnv) (cfg : CheckConfig)
    (bs : List Nat)
    (hb : env.getBrokers = Except.ok bs)
    (hv : env.validateErr = none)
    (hc : env.consistencyErr = none)
    (ho : cfg.validateOnly = true) :
    ∀ q : TopicQueryResult,
      CheckTopic { env with getTopic := q } cfg =
        Except.ok ([{ name := CheckName.configCorrect, passed := true },
                    { name := CheckName.configsConsistent, passed := true }],
          none) := by
  intro q
  exact checkTopic_validateOnly_eq { env with getTopic := q } cfg bs hb hv hc ho

theorem claim_C9_validate_only_witness :
    wEnv.getBrokers = Except.ok [1, 2, 3] ∧
    wEnv.validateErr = none ∧
    wEnv.consistencyErr = none ∧
    ({ wCfg with validateOnly := true } : CheckConfig).validateOnly = true ∧
    CheckTopic { wEnv with getTopic := TopicQueryResult.notFound }
        { wCfg with validateOnly := true } =
      Except.ok ([{ name := CheckName.configCorrect, passed := true },
                  { name := CheckName.configsConsistent, passed := true }],
        none) :=
  ⟨rfl, rfl, rfl, rfl,
    claim_C9_validate_only wEnv { wCfg with validateOnly := true } [1, 2, 3]
      rfl rfl rfl rfl TopicQueryResult.notFound⟩

theorem checkTopic_otherError_diffErr_eq (env : ClusterEnv) (cfg : CheckConfig)
    (bs : List Nat) (e e2 : GoErr)
    (hb : env.getBrokers = Except.ok bs)
    (hv : env.validateErr = none)
    (hc : env.consistencyErr = none)
    (ho : cfg.validateOnly = false)
    (ht : env.getTopic = TopicQueryResult.otherError e)
    (hd : env.configMapDiffs (effectiveSettings cfg.topicConfig) [] =
      Except.error e2) :
    CheckTopic env cfg =
      Except.ok (staticPrefix ++
        [{ name := CheckName.configSettingsCorrect }], some e2) := by
  simp only [CheckTopic, hb, hv, hc, ho, Bool.false_eq_true, if_false, ht,
    staticPrefix, appendResult_eq, zeroTopicInfo, hd]
  simp

/-- C4: when the topic does not exist (the live-topic query reports the
distinguished not-found condition) and the run panics on nothing (non-empty
broker list), the returned report contains no ConfigSettingsCorrect entry at
all, while ReplicationFactorCorrect and PartitionCountCorrect entries are
present and evaluated from the declared replication factor and partition
count against the broker count. -/
theorem claim_C4_not_found_skips_settings (env : ClusterEnv)
    (cfg : CheckConfig) (bs : List Nat)
    (hb : env.getBrokers = Except.ok bs)
    (hbs : bs ≠ [])
    (hv : env.validateErr = none)
    (hc : env.consistencyErr = none)
    (ho : cfg.validateOnly = false)
    (ht : env.getTopic = TopicQueryResult.notFound) :
    ∃ rep, CheckTopic env cfg = Except.ok (rep, none) ∧
      (∀ r ∈ rep, r.name ≠ CheckName.configSettingsCorrect) ∧
      (∃ r ∈ rep, r.name = CheckName.replicationFactorCorrect ∧
        (r.passed = true ↔
          Int.tmod cfg.topicConfig.replicationFactor (bs.length : Int) = 0)) ∧
      (∃ r ∈ rep, r.name = CheckName.partitionCountCorrect ∧
        (r.passed = true ↔
          (Int.tmod cfg.topicConfig.partitions (bs.length : Int) = 0 ∨
            cfg.topicConfig.partitions = 1))) := by
  have hlen : bs.length ≠ 0 := by
    simpa [List.length_eq_zero] using hbs
  refine ⟨staticPrefix ++ remainingReport cfg bs.length zeroTopicInfo,
    ?_, ?_, ?_, ?_⟩
  · rw [checkTopic_notFound_eq env cfg bs hb hv hc ho ht,
      remainingChecks_eq cfg bs.length zeroTopicInfo staticPrefix hlen]
  · intro r hr
    rcases List.mem_append.mp hr with h | h
    · simp only [staticPrefix, List.mem_cons, List.not_mem_nil, or_false] at h
      rcases h with rfl | rfl <;> simp
    · exact remainingReport_no_settings cfg bs.length zeroTopicInfo r h
  · obtain ⟨r, hr, hn, hiff⟩ := remainingReport_rf cfg bs.length zeroTopicInfo
    exact ⟨r, List.mem_append_right _ hr, hn, hiff⟩
  · obtain ⟨r, hr, hn, hiff⟩ := remainingReport_pc cfg bs.length zeroTopicInfo
    exact ⟨r, List.mem_append_right _ hr, hn, hiff⟩

theorem claim_C4_not_found_skips_settings_witness :
    ({ wEnv with getTopic := TopicQueryResult.notFound } : ClusterEnv).getBrokers =
        Except.ok [1, 2, 3] ∧
    ([1, 2, 3] : List Nat) ≠ [] ∧
    ({ wEnv with getTopic := TopicQueryResult.notFound } : ClusterEnv).validateErr = none ∧
    ({ wEnv with getTopic := TopicQueryResult.notFound } : ClusterEnv).consistencyErr = none ∧
    wCfg.validateOnly = false ∧
    ({ wEnv with getTopic := TopicQueryResult.notFound } : ClusterEnv).getTopic =
        TopicQueryResult.notFound ∧
    ∃ rep, CheckTopic { wEnv with getTopic := TopicQueryResult.notFound } wCfg =
        Except.ok (rep, none) ∧
      (∀ r ∈ rep, r.name ≠ CheckName.configSettingsCorrect) ∧
      (∃ r ∈ rep, r.name = CheckName.replicationFactorCorrect ∧
        (r.passed = true ↔
          Int.tmod wCfg.topicConfig.replicationFactor (([1, 2, 3] : List Nat).length : Int) = 0)) ∧
      (∃ r ∈ rep, r.name = CheckName.partitionCountCorrect ∧
        (r.passed = true ↔
          (Int.tmod wCfg.topicConfig.partitions (([1, 2, 3] : List Nat).length : Int) = 0 ∨
            wCfg.topicConfig.partitions = 1))) :=
  ⟨rfl, by decide, rfl, rfl, rfl, rfl,
    claim_C4_not_found_skips_settings _ wCfg [1, 2, 3] rfl (by decide)
      rfl rfl rfl rfl⟩

/-- C5: for every broker count b greater than zero and declared replication
factor r and partition count p reached by the run (the topic query returned
not-found, an ignored error, or metadata with a successful settings diff),
the ReplicationFactorCorrect entry passes iff r mod b is zero, and the
PartitionCountCorrect entry passes iff p mod b is zero or p equals one,
irrespective of b. -/
theorem claim_C5_divisibility_checks (env : ClusterEnv) (cfg : CheckConfig)
    (bs : List Nat)
    (hb : env.getBrokers = Except.ok bs)
    (hbs : bs ≠ [])
    (hv : env.validateErr = none)
    (hc : env.consistencyErr = none)
    (ho : cfg.validateOnly = false)
    (hreach : env.getTopic = TopicQueryResult.notFound ∨
      (∃ e diffKeys missingKeys,
        env.getTopic = TopicQueryResult.otherError e ∧
        env.configMapDiffs (effectiveSettings cfg.topicConfig) [] =
          Except.ok (diffKeys, missingKeys)) ∨
      (∃ info diffKeys missingKeys,
        env.getTopic = TopicQueryResult.found info ∧
        env.configMapDiffs (effectiveSettings cfg.topicConfig) info.config =
          Except.ok (diffKeys, missingKeys))) :
    ∃ rep, CheckTopic env cfg = Except.ok (rep, none) ∧
      (∃ r ∈ rep, r.name = CheckName.replicationFactorCorrect ∧
        (r.passed = true ↔
          Int.tmod cfg.topicConfig.replicationFactor (bs.length : Int) = 0)) ∧
      (∃ r ∈ rep, r.name = CheckName.partitionCountCorrect ∧
        (r.passed = true ↔
          (Int.tmod cfg.topicConfig.partitions (bs.length : Int) = 0 ∨
            cfg.topicConfig.partitions = 1))) := by
  have hlen : bs.length ≠ 0 := by
    simpa [List.length_eq_zero] using hbs
  obtain ⟨pre, t, heq⟩ :
      ∃ pre t, CheckTopic env cfg = remainingChecks cfg bs.length t pre := by
    rcases hreach with ht | ⟨e, dk, mk, ht, hd⟩ | ⟨info, dk, mk, ht, hd⟩
    · exact ⟨staticPrefix, zeroTopicInfo,
        checkTopic_notFound_eq env cfg bs hb hv hc ho ht⟩
    · exact ⟨staticPrefix ++ [settingsEntry dk mk], zeroTopicInfo,
        checkTopic_otherError_eq env cfg bs e dk mk hb hv hc ho ht hd⟩
    · exact ⟨staticPrefix ++ [settingsEntry dk mk], info,
        checkTopic_found_eq env cfg bs info dk mk hb hv hc ho ht hd⟩
  refine ⟨pre ++ remainingReport cfg bs.length t, ?_, ?_, ?_⟩
  · rw [heq, remainingChecks_eq cfg bs.length t pre hlen]
  · obtain ⟨r, hr, hn, hiff⟩ := remainingReport_rf cfg bs.length t
    exact ⟨r, List.mem_append_right _ hr, hn, hiff⟩
  · obtain ⟨r, hr, hn, hiff⟩ := remainingReport_pc cfg bs.length t
    exact ⟨r, List.mem_append_right _ hr, hn, hiff⟩

theorem claim_C5_divisibility_checks_witness :
    wEnv.getBrokers = Except.ok [1, 2, 3] ∧
    ([1, 2, 3] : List Nat) ≠ [] ∧
    wEnv.validateErr = none ∧
    wEnv.consistencyErr = none ∧
    wCfg.validateOnly = false ∧
    (∃ info diffKeys missingKeys,
      wEnv.getTopic = TopicQueryResult.found info ∧
      wEnv.configMapDiffs (effectiveSettings wCfg.topicConfig) info.config =
        Except.ok (diffKeys, missingKeys)) ∧
    ∃ rep, CheckTopic wEnv wCfg = Except.ok (rep, none) ∧
      (∃ r ∈ rep, r.name = CheckName.replicationFactorCorrect ∧
        (r.passed = true ↔
          Int.tmod wCfg.topicConfig.replicationFactor (([1, 2, 3] : List Nat).length : Int) = 0)) ∧
      (∃ r ∈ rep, r.name = CheckName.partitionCountCorrect ∧
        (r.passed = true ↔
          (Int.tmod wCfg.topicConfig.partitions (([1, 2, 3] : List Nat).length : Int) = 0 ∨
            wCfg.topicConfig.partitions = 1))) :=
  ⟨rfl, by decide, rfl, rfl, rfl,
    ⟨wInfo, [], [], rfl, rfl⟩,
    claim_C5_divisibility_checks wEnv wCfg [1, 2, 3] rfl (by decide) rfl rfl rfl
      (Or.inr (Or.inr ⟨wInfo, [], [], rfl, rfl⟩))⟩

/-- Fixture for the C3 counterexample: empty broker list, topic present,
but the settings diff itself fails, so the run returns before either modulo
is evaluated. -/
def c3Env : ClusterEnv :=
  { getBrokers := Except.ok [],
    validateErr := none,
    consistencyErr := none,
    getTopic := TopicQueryResult.found wInfo,
    configMapDiffs := fun _ _ => Except.error "diff failure" }

/-- C3 counterexample: with an empty broker list, both static checks
passing and validateOnly false, an input whose settings-diff computation
fails returns normally (with that error) and never reaches a
modulo-by-zero, refuting the unconditional claim. -/
theorem claim_C3_counterexample :
    CheckTopic c3Env wCfg =
      Except.ok (staticPrefix ++
        [{ name := CheckName.configSettingsCorrect }], some "diff failure") ∧
    ∀ s, CheckTopic c3Env wCfg ≠ Except.error s := by
  have h0 : CheckTopic c3Env wCfg =
      Except.ok (staticPrefix ++
        [{ name := CheckName.configSettingsCorrect }], some "diff failure") := rfl
  refine ⟨h0, fun s h => ?_⟩
  rw [h0] at h
  exact Except.noConfusion h

/-- C3 (amended): CheckTopic computes both declared counts modulo the
broker-list length with no guard against a zero divisor; for every input
where the broker query succeeds with an empty list, both static checks
pass, validateOnly is false, and the run is not cut short by a settings-diff
failure, evaluation reaches a modulo-by-zero (a division-by-zero runtime
panic); the replication-factor and partition-count checks are well-defined
only when the broker list is non-empty. -/
theorem claim_C3_empty_brokers_divide_by_zero (env : ClusterEnv)
    (cfg : CheckConfig)
    (hb : env.getBrokers = Except.ok [])
    (hv : env.validateErr = none)
    (hc : env.consistencyErr = none)
    (ho : cfg.validateOnly = false)
    (hreach : env.getTopic = TopicQueryResult.notFound ∨
      (∃ e diffKeys missingKeys,
        env.getTopic = TopicQueryResult.otherError e ∧
        env.configMapDiffs (effectiveSettings cfg.topicConfig) [] =
          Except.ok (diffKeys, missingKeys)) ∨
      (∃ info diffKeys missingKeys,
        env.getTopic = TopicQueryResult.found info ∧
        env.configMapDiffs (effectiveSettings cfg.topicConfig) info.config =
          Except.ok (diffKeys, missingKeys))) :
    CheckTopic env cfg =
      Except.error "runtime error: integer divide by zero" := by
  obtain ⟨pre, t, heq⟩ :
      ∃ pre t, CheckTopic env cfg =
        remainingChecks cfg ([] : List Nat).length t pre := by
    rcases hreach with ht | ⟨e, dk, mk, ht, hd⟩ | ⟨info, dk, mk, ht, hd⟩
    · exact ⟨staticPrefix, zeroTopicInfo,
        checkTopic_notFound_eq env cfg [] hb hv hc ho ht⟩
    · exact ⟨staticPrefix ++ [settingsEntry dk mk], zeroTopicInfo,
        checkTopic_otherError_eq env cfg [] e dk mk hb hv hc ho ht hd⟩
    · exact ⟨staticPrefix ++ [settingsEntry dk mk], info,
        checkTopic_found_eq env cfg [] info dk mk hb hv hc ho ht hd⟩
  rw [heq]
  exact remainingChecks_zero cfg t pre

theorem claim_C3_empty_brokers_divide_by_zero_witness :
    ({ wEnv with getBrokers := Except.ok [],
                 getTopic := TopicQueryResult.notFound } : ClusterEnv).getBrokers =
        Except.ok [] ∧
    ({ wEnv with getBrokers := Except.ok [],
                 getTopic := TopicQueryResult.notFound } : ClusterEnv).validateErr = none ∧
    ({ wEnv with getBrokers := Except.ok [],
                 getTopic := TopicQueryResult.notFound } : ClusterEnv).consistencyErr = none ∧
    wCfg.validateOnly = false ∧
    ({ wEnv with getBrokers := Except.ok [],
                 getTopic := TopicQueryResult.notFound } : ClusterEnv).getTopic =
        TopicQueryResult.notFound ∧
    CheckTopic { wEnv with getBrokers := Except.ok [],
                           getTopic := TopicQueryResult.notFound } wCfg =
      Except.error "runtime error: integer divide by zero" :=
  ⟨rfl, rfl, rfl, rfl, rfl,
    claim_C3_empty_brokers_divide_by_zero _ wCfg rfl rfl rfl rfl (Or.inl rfl)⟩

/-- C6: for every run reaching the ConfigSettingsCorrect check (topic
exists, settings diff modelled from the spec), the diffed desired map is the
declared settings with the retention key overwritten to
retentionMinutes * 60000 when retentionMinutes is positive; the check
passes iff both the differing-key list and the missing-key list are empty;
on failure the message is the key count followed by
" keys have different values between cluster and topic config: " and the
combined keys rendered in ascending lexicographic order, the two key sets
being disjoint so the count is the size of their union. -/
theorem claim_C6_settings_diff_check (env : ClusterEnv) (cfg : CheckConfig)
    (bs : List Nat) (info : TopicInfo)
    (hb : env.getBrokers = Except.ok bs)
    (hbs : bs ≠ [])
    (hv : env.validateErr = none)
    (hc : env.consistencyErr = none)
    (ho : cfg.validateOnly = false)
    (ht : env.getTopic = TopicQueryResult.found info)
    (hd : env.configMapDiffs = fun s l => Except.ok (ConfigMapDiffs s l)) :
    ∃ rep diffKeys missingKeys,
      (diffKeys, missingKeys) =
        ConfigMapDiffs
          (if cfg.topicConfig.retentionMinutes > 0 then
            setKey cfg.topicConfig.settings RetentionKey
              (SettingVal.intV (cfg.topicConfig.retentionMinutes * 60000))
           else cfg.topicConfig.settings)
          info.config ∧
      CheckTopic env cfg = Except.ok (rep, none) ∧
      (∃ r ∈ rep, r.name = CheckName.configSettingsCorrect ∧
        (r.passed = true ↔ diffKeys = [] ∧ missingKeys = []) ∧
        (r.passed = false →
          r.message =
            toString (diffKeys.length + missingKeys.length) ++
              " keys have different values between cluster and topic config: " ++
              formatStringList (sortKeys (diffKeys ++ missingKeys)) ∧
          List.Chain' (fun a b => strLt b a = false)
            (sortKeys (diffKeys ++ missingKeys)) ∧
          (∀ k, k ∈ sortKeys (diffKeys ++ missingKeys) ↔
            k ∈ diffKeys ∨ k ∈ missingKeys) ∧
          (∀ k, k ∈ diffKeys → k ∉ missingKeys))) := by
  have hlen : bs.length ≠ 0 := by
    simpa [List.length_eq_zero] using hbs
  have hd' : env.configMapDiffs (effectiveSettings cfg.topicConfig) info.config =
      Except.ok
        ((ConfigMapDiffs (effectiveSettings cfg.topicConfig) info.config).1,
         (ConfigMapDiffs (effectiveSettings cfg.topicConfig) info.config).2) := by
    rw [hd]
  refine ⟨(staticPrefix ++
      [settingsEntry
        (ConfigMapDiffs (effectiveSettings cfg.topicConfig) info.config).1
        (ConfigMapDiffs (effectiveSettings cfg.topicConfig) info.config).2]) ++
      remainingReport cfg bs.length info,
    (ConfigMapDiffs (effectiveSettings cfg.topicConfig) info.config).1,
    (ConfigMapDiffs (effectiveSettings cfg.topicConfig) info.config).2,
    rfl, ?_, ?_⟩
  · rw [checkTopic_found_eq env cfg bs info _ _ hb hv hc ho ht hd',
      remainingChecks_eq cfg bs.length info _ hlen]
  · refine ⟨settingsEntry
        (ConfigMapDiffs (effectiveSettings cfg.topicConfig) info.config).1
        (ConfigMapDiffs (effectiveSettings cfg.topicConfig) info.config).2,
      List.mem_append_left _
        (List.mem_append_right _ (List.mem_singleton.mpr rfl)), ?_, ?_, ?_⟩
    · rw [settingsEntry]
      split_ifs <;> rfl
    · rw [settingsEntry]
      split_ifs with hdm
      · simpa using hdm
      · simpa using hdm
    · intro hfail
      rw [settingsEntry] at hfail ⊢
      by_cases hdm :
          (ConfigMapDiffs (effectiveSettings cfg.topicConfig) info.config).1 = [] ∧
          (ConfigMapDiffs (effectiveSettings cfg.topicConfig) info.config).2 = []
      · rw [if_pos hdm] at hfail
        cases hfail
      · rw [if_neg hdm]
        refine ⟨?_, sortKeys_chain _, ?_, ?_⟩
        · show settingsMsg _ = _
          rw [settingsMsg, sortKeys_length, List.length_append]
        · intro k
          rw [mem_sortKeys, List.mem_append]
        · intro k hk
          exact configMapDiffs_disjoint _ _ k hk

/-- Fixture for the C6 witness: live config drifted on one key and missing
another declared key, with a declared positive retention. -/
def c6TopicConfig : TopicConfig :=
  { name := "topic-d", replicationFactor := 3, partitions := 3,
    settings := [("cleanup.policy", SettingVal.strV "delete")],
    retentionMinutes := 1 }

def c6Info : TopicInfo :=
  { config := [("retention.ms", SettingVal.intV 120000)],
    numPartitions := 3, throttled := false,
    numOutOfSync := 0, numWrongLeader := 0 }

theorem claim_C6_settings_diff_check_witness :
    ({ wEnv with getTopic := TopicQueryResult.found c6Info } : ClusterEnv).getBrokers =
        Except.ok [1, 2, 3] ∧
    ([1, 2, 3] : List Nat) ≠ [] ∧
    ({ wEnv with getTopic := TopicQueryResult.found c6Info } : ClusterEnv).validateErr = none ∧
    ({ wEnv with getTopic := TopicQueryResult.found c6Info } : ClusterEnv).consistencyErr = none ∧
    ({ wCfg with topicConfig := c6TopicConfig } : CheckConfig).validateOnly = false ∧
    ({ wEnv with getTopic := TopicQueryResult.found c6Info } : ClusterEnv).getTopic =
        TopicQueryResult.found c6Info ∧
    ({ wEnv with getTopic := TopicQueryResult.found c6Info } : ClusterEnv).configMapDiffs =
        (fun s l => Except.ok (ConfigMapDiffs s l)) ∧
    ∃ rep diffKeys missingKeys,
      (diffKeys, missingKeys) =
        ConfigMapDiffs
          (if ({ wCfg with topicConfig := c6TopicConfig } : CheckConfig).topicConfig.retentionMinutes > 0 then
            setKey ({ wCfg with topicConfig := c6TopicConfig } : CheckConfig).topicConfig.settings RetentionKey
              (SettingVal.intV (({ wCfg with topicConfig := c6TopicConfig } : CheckConfig).topicConfig.retentionMinutes * 60000))
           else ({ wCfg with topicConfig := c6TopicConfig } : CheckConfig).topicConfig.settings)
          c6Info.config ∧
      CheckTopic { wEnv with getTopic := TopicQueryResult.found c6Info }
          { wCfg with topicConfig := c6TopicConfig } =
        Except.ok (rep, none) ∧
      (∃ r ∈ rep, r.name = CheckName.configSettingsCorrect ∧
        (r.passed = true ↔ diffKeys = [] ∧ missingKeys = []) ∧
        (r.passed = false →
          r.message =
            toString (diffKeys.length + missingKeys.length) ++
              " keys have different values between cluster and topic config: " ++
              formatStringList (sortKeys (diffKeys ++ missingKeys)) ∧
          List.Chain' (fun a b => strLt b a = false)
            (sortKeys (diffKeys ++ missingKeys)) ∧
          (∀ k, k ∈ sortKeys (diffKeys ++ missingKeys) ↔
            k ∈ diffKeys ∨ k ∈ missingKeys) ∧
          (∀ k, k ∈ diffKeys → k ∉ missingKeys))) :=
  ⟨rfl, by decide, rfl, rfl, rfl, rfl, rfl,
    claim_C6_settings_diff_check _ _ [1, 2, 3] c6Info rfl (by decide)
      rfl rfl rfl rfl rfl⟩

/-- C10: for every invocation of CheckTopic that returns a nil error, every
entry of the returned report is finalized and satisfies the result
invariant: its message is empty whenever it passed and non-empty whenever
it failed (no entry remains in the transient pending state). -/
theorem claim_C10_message_invariant (env : ClusterEnv) (cfg : CheckConfig)
    (rep : List TopicCheckResult)
    (h : CheckTopic env cfg = Except.ok (rep, none)) :
    ∀ r ∈ rep, (r.passed = true → r.message = "") ∧
      (r.passed = false → r.message ≠ "") := by
  have hinv : ∀ r ∈ rep, resultInv r := by
    cases hb : env.getBrokers with
    | error e =>
      rw [checkTopic_broker_error env cfg e hb] at h
      simp at h
    | ok bs =>
      cases hv : env.validateErr with
      | some e =>
        rw [checkTopic_validate_fail env cfg bs e hb hv] at h
        simp only [Except.ok.injEq, Prod.mk.injEq] at h
        obtain ⟨hrep, -⟩ := h
        intro r hr
        rw [← hrep] at hr
        simp only [List.mem_singleton] at hr
        subst hr
        exact resultInv_failed _ _ (append2_ne_empty_left _ _ (by decide))
      | none =>
        cases hc : env.consistencyErr with
        | some e =>
          rw [checkTopic_consistency_fail env cfg bs e hb hv hc] at h
          simp only [Except.ok.injEq, Prod.mk.injEq] at h
          obtain ⟨hrep, -⟩ := h
          intro r hr
          rw [← hrep] at hr
          simp only [List.mem_cons, List.not_mem_nil, or_false] at hr
          rcases hr with rfl | rfl
          · exact resultInv_passed _
          · exact resultInv_failed _ _ (append2_ne_empty_left _ _ (by decide))
        | none =>
          cases ho : cfg.validateOnly with
          | true =>
            rw [checkTopic_validateOnly_eq env cfg bs hb hv hc ho] at h
            simp only [Except.ok.injEq, Prod.mk.injEq] at h
            obtain ⟨hrep, -⟩ := h
            intro r hr
            rw [← hrep] at hr
            exact staticPrefix_invariant r hr
          | false =>
            cases ht : env.getTopic with
            | notFound =>
              rw [checkTopic_notFound_eq env cfg bs hb hv hc ho ht] at h
              rcases Nat.eq_zero_or_pos bs.length with h0 | h0
              · rw [h0, remainingChecks_zero] at h
                exact absurd h (by simp)
              · rw [remainingChecks_eq cfg bs.length zeroTopicInfo staticPrefix
                  (Nat.pos_iff_ne_zero.mp h0)] at h
                simp only [Except.ok.injEq, Prod.mk.injEq] at h
                obtain ⟨hrep, -⟩ := h
                intro r hr
                rw [← hrep] at hr
                rcases List.mem_append.mp hr with h' | h'
                · exact staticPrefix_invariant r h'
                · exact remainingReport_invariant _ _ _ r h'
            | found info =>
              cases hd : env.configMapDiffs (effectiveSettings cfg.topicConfig)
                  info.config with
              | error e =>
                rw [checkTopic_found_diffErr_eq env cfg bs info e hb hv hc ho ht hd]
                  at h
                simp at h
              | ok p =>
                obtain ⟨dk, mk⟩ := p
                rw [checkTopic_found_eq env cfg bs info dk mk hb hv hc ho ht hd] at h
                rcases Nat.eq_zero_or_pos bs.length with h0 | h0
                · rw [h0, remainingChecks_zero] at h
                  exact absurd h (by simp)
                · rw [remainingChecks_eq cfg bs.length info _
                    (Nat.pos_iff_ne_zero.mp h0)] at h
                  simp only [Except.ok.injEq, Prod.mk.injEq] at h
                  obtain ⟨hrep, -⟩ := h
                  intro r hr
                  rw [← hrep] at hr
                  rcases List.mem_append.mp hr with h' | h'
                  · rcases List.mem_append.mp h' with h'' | h''
                    · exact staticPrefix_invariant r h''
                    · simp only [List.mem_singleton] at h''
                      subst h''
                      exact settingsEntry_invariant dk mk
                  · exact remainingReport_invariant _ _ _ r h'
            | otherError e =>
              cases hd : env.configMapDiffs (effectiveSettings cfg.topicConfig)
                  [] with
              | error e2 =>
                rw [checkTopic_otherError_diffErr_eq env cfg bs e e2 hb hv hc ho
                  ht hd] at h
                simp at h
              | ok p =>
                obtain ⟨dk, mk⟩ := p
                rw [checkTopic_otherError_eq env cfg bs e dk mk hb hv hc ho ht hd]
                  at h
                rcases Nat.eq_zero_or_pos bs.length with h0 | h0
                · rw [h0, remainingChecks_zero] at h
                  exact absurd h (by simp)
                · rw [remainingChecks_eq cfg bs.length zeroTopicInfo _
                    (Nat.pos_iff_ne_zero.mp h0)] at h
                  simp only [Except.ok.injEq, Prod.mk.injEq] at h
                  obtain ⟨hrep, -⟩ := h
                  intro r hr
                  rw [← hrep] at hr
                  rcases List.mem_append.mp hr with h' | h'
                  · rcases List.mem_append.mp h' with h'' | h''
                    · exact staticPrefix_invariant r h''
                    · simp only [List.mem_singleton] at h''
                      subst h''
                      exact settingsEntry_invariant dk mk
                  · exact remainingReport_invariant _ _ _ r h'
  exact hinv

theorem claim_C10_message_invariant_witness :
    CheckTopic wEnv wCfg =
      Except.ok ([{ name := CheckName.configCorrect, passed := true },
                  { name := CheckName.configsConsistent, passed := true },
                  { name := CheckName.configSettingsCorrect, passed := true },
                  { name := CheckName.replicationFactorCorrect, passed := true },
                  { name := CheckName.partitionCountCorrect, passed := true },
                  { name := CheckName.throttlesClear, passed := true },
                  { name := CheckName.replicasInSync, passed := true }], none) ∧
    ∀ r ∈ ([{ name := CheckName.configCorrect, passed := true },
            { name := CheckName.configsConsistent, passed := true },
            { name := CheckName.configSettingsCorrect, passed := true },
            { name := CheckName.replicationFactorCorrect, passed := true },
            { name := CheckName.partitionCountCorrect, passed := true },
            { name := CheckName.throttlesClear, passed := true },
            { name := CheckName.replicasInSync, passed := true }] :
        List TopicCheckResult),
      (r.passed = true → r.message = "") ∧ (r.passed = false → r.message ≠ "") :=
  ⟨rfl, claim_C10_message_invariant wEnv wCfg _ rfl⟩

/-- Fixture for C1: the topic query fails with a generic (non-not-found)
error after both static checks pass. -/
def c1Env : ClusterEnv :=
  { getBrokers := Except.ok [1, 2, 3],
    validateErr := none,
    consistencyErr := none,
    getTopic := TopicQueryResult.otherError "connection refused",
    configMapDiffs := fun s l => Except.ok (ConfigMapDiffs s l) }

/-- Fixture for C1: a declared config with no settings, so every remaining
check trivially passes against the zero-valued topic info. -/
def c1Cfg : CheckConfig :=
  { checkLeaders := false, numRacks := 3,
    topicConfig :=
      { name := "topic-b", replicationFactor := 3, partitions := 3,
        settings := [], retentionMinutes := 0 },
    validateOnly := false }

/-- C1: the source comments out the early return after the topic query
(check.go lines 79-89), so a generic topic-query error is silently dropped:
at this input CheckTopic runs every remaining check against the zero-valued
topic info and returns a full seven-entry report with a nil error, instead
of aborting with the report so far and the error as the claim (and the
function's own comments) state. -/
theorem claim_C1_topic_query_error_swallowed :
    CheckTopic c1Env c1Cfg =
      Except.ok ([{ name := CheckName.configCorrect, passed := true },
                  { name := CheckName.configsConsistent, passed := true },
                  { name := CheckName.configSettingsCorrect, passed := true },
                  { name := CheckName.replicationFactorCorrect, passed := true },
                  { name := CheckName.partitionCountCorrect, passed := true },
                  { name := CheckName.throttlesClear, passed := true },
                  { name := CheckName.replicasInSync, passed := true }], none) ∧
    ∀ rep e, CheckTopic c1Env c1Cfg ≠ Except.ok (rep, some e) := by
  have h0 : CheckTopic c1Env c1Cfg =
      Except.ok ([{ name := CheckName.configCorrect, passed := true },
                  { name := CheckName.configsConsistent, passed := true },
                  { name := CheckName.configSettingsCorrect, passed := true },
                  { name := CheckName.replicationFactorCorrect, passed := true },
                  { name := CheckName.partitionCountCorrect, passed := true },
                  { name := CheckName.throttlesClear, passed := true },
                  { name := CheckName.replicasInSync, passed := true }], none) := rfl
  refine ⟨h0, fun rep e hcontra => ?_⟩
  rw [h0] at hcontra
  simp at hcontra

/-- Fixture for C2: six brokers, declared replication factor 3 and
partition count 12, topic present with matching settings, no throttle, no
out-of-sync partitions. -/
def c2Info : TopicInfo :=
  { config := [("cleanup.policy", SettingVal.strV "delete")],
    numPartitions := 12, throttled := false,
    numOutOfSync := 0, numWrongLeader := 0 }

def c2Env : ClusterEnv :=
  { getBrokers := Except.ok [1, 2, 3, 4, 5, 6],
    validateErr := none,
    consistencyErr := none,
    getTopic := TopicQueryResult.found c2Info,
    configMapDiffs := fun s l => Except.ok (ConfigMapDiffs s l) }

def c2Cfg : CheckConfig :=
  { checkLeaders := false, numRacks := 3,
    topicConfig :=
      { name := "topic-c", replicationFactor := 3, partitions := 12,
        settings := [("cleanup.policy", SettingVal.strV "delete")],
        retentionMinutes := 0 },
    validateOnly := false }

/-- Report actually produced at the C2 input with checkLeaders off: seven
entries, the replication-factor check failed (3 is not a multiple of 6). -/
def c2Report : List TopicCheckResult :=
  [{ name := CheckName.configCorrect, passed := true },
   { name := CheckName.configsConsistent, passed := true },
   { name := CheckName.configSettingsCorrect, passed := true },
   { name := CheckName.replicationFactorCorrect, passed := false,
     message := "len(ReplicationFactor) 3 must be a multiple of len(broker) 6" },
   { name := CheckName.partitionCountCorrect, passed := true },
   { name := CheckName.throttlesClear, passed := true },
   { name := CheckName.replicasInSync, passed := true }]

/-- Report at the C2 input with checkLeaders on: the same seven entries
followed by a passed leaders check. -/
def c2ReportLeaders : List TopicCheckResult :=
  c2Report ++ [{ name := CheckName.leadersCorrect, passed := true }]

/-- C2 counterexample: at the spec's end-to-end input (6 brokers, declared
replication factor 3, partitions 12, topic present and matching) there is
no six-entry all-passed report with nil error: the run actually yields
seven entries with the replication-factor check failed. -/
theorem claim_C2_counterexample :
    ¬ (∃ rep, CheckTopic c2Env c2Cfg = Except.ok (rep, none) ∧
        rep.length = 6 ∧ ∀ r ∈ rep, r.passed = true) := by
  rintro ⟨rep, hrep, hlen, -⟩
  rw [show CheckTopic c2Env c2Cfg = Except.ok (c2Report, none) from rfl] at hrep
  simp only [Except.ok.injEq, Prod.mk.injEq] at hrep
  obtain ⟨hr, -⟩ := hrep
  rw [← hr] at hlen
  exact absurd hlen (by decide)

/-- C2 (amended): at the end-to-end input with 6 brokers, declared
replication factor 3 and partitions 12, topic present with matching
settings, no throttle and no out-of-sync partitions, the run returns a nil
error and a report of exactly 7 entries (8 when checkLeaders is set); the
replication-factor entry fails (3 is not a multiple of 6) and every other
evaluated check passes. -/
theorem claim_C2_end_to_end :
    CheckTopic c2Env c2Cfg = Except.ok (c2Report, none) ∧
    CheckTopic c2Env { c2Cfg with checkLeaders := true } =
      Except.ok (c2ReportLeaders, none) ∧
    c2Report.length = 7 ∧
    c2ReportLeaders.length = 8 ∧
    (∃ r ∈ c2Report, r.name = CheckName.replicationFactorCorrect ∧
      r.passed = false) ∧
    (∀ r ∈ c2Report, r.name ≠ CheckName.replicationFactorCorrect →
      r.passed = true) ∧
    (∀ r ∈ c2ReportLeaders,
      r.name ≠ CheckName.replicationFactorCorrect → r.passed = true) := by
  refine ⟨rfl, rfl, rfl, rfl, ?_, ?_, ?_⟩ <;> decide
